import Mathlib

/-!
Shallow embedding of the pandas/SQL transforms of
`airflow_data/dags/sales_pipeline.py` and of the task-dependency graph
declared at the bottom of that file.

Modelling conventions:
* Numeric columns (`quantity`, `price`, temperatures, ...) are rationals.
* A pandas `groupby(key).agg(...).reset_index()` with the default
  `sort=True` is modelled by `groupByAgg`: the distinct keys in first-occurrence
  order are deduplicated and sorted ascending, and each key is paired with the
  aggregate of the rows carrying it.
* `sort_values(by=col, ascending=False)` is modelled by `sort_values_desc`:
  pandas computes an ascending argsort of the reversed array and reverses the
  result (`nargsort`).  The default `kind='quicksort'` guarantees the ordering
  but not the relative order of ties; the executable model here uses the
  insertion sort `sortLe` and therefore coincides with numpy's default sort
  only in its small-array insertion-sort regime — which covers every concrete
  evaluation below — so theorems quantifying over unboundedly many rows use
  only its tie-independent consequences: the ordering of the output and the
  multiset of its rows.
-/

/-- Insert `a` into `l` before the first element `b` with `le a b`. -/
def insertLe {α : Type} (le : α → α → Bool) (a : α) : List α → List α
  | [] => [a]
  | b :: l => if le a b then a :: b :: l else b :: insertLe le a l

/-- Stable insertion sort by the comparator `le`. -/
def sortLe {α : Type} (le : α → α → Bool) : List α → List α
  | [] => []
  | a :: l => insertLe le a (sortLe le l)

theorem mem_insertLe {α : Type} (le : α → α → Bool) (a x : α) (l : List α) :
    x ∈ insertLe le a l ↔ x = a ∨ x ∈ l := by
  induction l with
  | nil => simp [insertLe]
  | cons b l ih =>
      by_cases h : le a b
      · simp [insertLe, h]
      · simp [insertLe, h, ih]
        tauto

theorem perm_insertLe {α : Type} (le : α → α → Bool) (a : α) (l : List α) :
    List.Perm (insertLe le a l) (a :: l) := by
  induction l with
  | nil => simp [insertLe]
  | cons b l ih =>
      by_cases h : le a b
      · simp [insertLe, h]
      · simp only [insertLe, h]
        exact (List.Perm.cons b ih).trans (List.Perm.swap a b l)

theorem perm_sortLe {α : Type} (le : α → α → Bool) (l : List α) :
    List.Perm (sortLe le l) l := by
  induction l with
  | nil => simp [sortLe]
  | cons a l ih =>
      exact (perm_insertLe le a (sortLe le l)).trans (List.Perm.cons a ih)

theorem mem_sortLe {α : Type} (le : α → α → Bool) (x : α) (l : List α) :
    x ∈ sortLe le l ↔ x ∈ l :=
  (perm_sortLe le l).mem_iff

theorem pairwise_insertLe {α : Type} (le : α → α → Bool)
    (total : ∀ a b, le a b = true ∨ le b a = true)
    (trans : ∀ a b c, le a b = true → le b c = true → le a c = true)
    (a : α) (l : List α) (h : List.Pairwise (fun x y => le x y = true) l) :
    List.Pairwise (fun x y => le x y = true) (insertLe le a l) := by
  induction l with
  | nil => simp [insertLe]
  | cons b l ih =>
      rw [List.pairwise_cons] at h
      obtain ⟨hb, hl⟩ := h
      by_cases hab : le a b = true
      · simp only [insertLe, hab, if_true]
        refine List.Pairwise.cons ?_ (List.Pairwise.cons hb hl)
        intro y hy
        rw [List.mem_cons] at hy
        rcases hy with hyb | hy
        · rw [hyb]; exact hab
        · exact trans a b y hab (hb y hy)
      · simp only [insertLe, hab, if_false]
        refine List.Pairwise.cons ?_ (ih hl)
        intro y hy
        rcases (mem_insertLe le a y l).1 hy with hya | hy
        · rw [hya]
          rcases total a b with h1 | h1
          · exact absurd h1 hab
          · exact h1
        · exact hb y hy

theorem pairwise_sortLe {α : Type} (le : α → α → Bool)
    (total : ∀ a b, le a b = true ∨ le b a = true)
    (trans : ∀ a b c, le a b = true → le b c = true → le a c = true)
    (l : List α) :
    List.Pairwise (fun x y => le x y = true) (sortLe le l) := by
  induction l with
  | nil => simp [sortLe]
  | cons a l ih => exact pairwise_insertLe le total trans a (sortLe le l) ih

/-- Model of `df.groupby([key]).agg(...).reset_index()` with the pandas default
`sort=True`: the distinct key values, sorted ascending by `le`, each paired
with the aggregate of the rows carrying that key. -/
def groupByAgg {Row K V : Type} [DecidableEq K] (le : K → K → Bool)
    (key : Row → K) (agg : List Row → V) (l : List Row) : List (K × V) :=
  (sortLe le ((l.map key).dedup)).map
    (fun k => (k, agg (l.filter (fun r => decide (key r = k)))))

theorem mem_groupByAgg {Row K V : Type} [DecidableEq K] (le : K → K → Bool)
    (key : Row → K) (agg : List Row → V) (l : List Row) (k : K) (v : V) :
    (k, v) ∈ groupByAgg le key agg l ↔
      (∃ r ∈ l, key r = k) ∧ v = agg (l.filter (fun r => decide (key r = k))) := by
  simp only [groupByAgg, List.mem_map, mem_sortLe, List.mem_dedup, List.mem_map,
    Prod.mk.injEq]
  constructor
  · rintro ⟨k1, ⟨r, hr, hk⟩, rfl, rfl⟩
    exact ⟨⟨r, hr, hk⟩, rfl⟩
  · rintro ⟨⟨r, hr, hk⟩, rfl⟩
    exact ⟨k, ⟨r, hr, hk⟩, rfl, rfl⟩

/-- Model of `df.sort_values(by=col, ascending=False)` (pandas `nargsort`):
reverse the rows, take an ascending sort, and reverse the result.  The default
`kind='quicksort'` leaves the relative order of ties unspecified; this
executable model sorts with `sortLe` and so matches numpy's default sort
exactly on small arrays (its insertion-sort regime).  Theorems over inputs of
unbounded size rely only on what every kind guarantees: the result is a
permutation of the input, ordered by the sort column. -/
def sort_values_desc {Row : Type} (le : Row → Row → Bool) (l : List Row) :
    List Row :=
  (sortLe le l.reverse).reverse

/-- Ascending comparator on `Nat` keys. -/
def leNat (a b : Nat) : Bool := decide (a ≤ b)

/-- Comparator on aggregate rows by their numeric value column, as used by
`sort_values(by="quantity", ...)`. -/
def leQty (a b : Nat × ℚ) : Bool := decide (a.2 ≤ b.2)

/-- Lexicographic ascending comparator on `Nat × Nat` keys. -/
def leNN (a b : Nat × Nat) : Bool :=
  decide (a.1 < b.1) || (decide (a.1 = b.1) && decide (a.2 ≤ b.2))

/-- Lexicographic comparator on character lists, for `String` group keys. -/
def leChars : List Char → List Char → Bool
  | [], _ => true
  | _ :: _, [] => false
  | a :: as, b :: bs =>
      if a < b then true else if b < a then false else leChars as bs

/-- Ascending comparator on `String` keys. -/
def leStr (a b : String) : Bool := leChars a.data b.data

/-- A calendar date as carried by the `order_date` column. -/
structure Date where
  year : Nat
  month : Nat
  day : Nat
deriving DecidableEq

/-- Pandas `Series.dt.quarter`: quarter 1 is months 1 to 3, and so on. -/
def Date.quarter (d : Date) : Nat := (d.month - 1) / 3 + 1

/-- A row of `bronze_customers`: a user object from the customer API after
`pd.json_normalize` and `normalize_columns` flatten `address.geo.lat` and
`address.geo.lng` into underscore-separated column names. -/
structure Customer where
  id : Nat
  name : String
  address_geo_lat : ℚ
  address_geo_lng : ℚ
deriving DecidableEq

/-- A weather API response: HTTP status code plus (for successful calls) the
payload fields the pipeline consumes.  `weather` is the list the API returns,
whose first element's description is used. -/
structure WeatherResp where
  status_code : Nat
  weather : List String
  main_temp : ℚ
  main_feels_like : ℚ
  main_humidity : ℚ
  wind_speed : ℚ
  clouds_all : ℚ
deriving DecidableEq

/-- A row of `bronze_weather` after flattening and `set_index(["customer_id"])`. -/
structure WeatherRow where
  customer_id : Nat
  weather_description : String
  main_temp : ℚ
  main_feels_like : ℚ
  main_humidity : ℚ
  wind_speed : ℚ
  clouds_all : ℚ
deriving DecidableEq

/-- `get_weather(id, lat, lon)`: on a 200 response return the payload tagged
with the originating customer id (`data["customer_id"] = id`); on any other
status code return `None`. -/
def get_weather (id : Nat) (resp : WeatherResp) : Option (Nat × WeatherResp) :=
  if resp.status_code = 200 then some (id, resp) else none

/-- The default description used when the API's `weather` list is empty; the
  external-interface contract guarantees at least one entry. -/
def emptyDescription : String := ""

/-- `fetch_weather()`: look up the weather for every `bronze_customers` row,
drop the `None` results (`filter(None, ...)`), unwrap the single entry of the
`weather` list, flatten, and key the result by `customer_id`. -/
def fetch_weather (customers : List Customer) (api : ℚ → ℚ → WeatherResp) :
    List WeatherRow :=
  (customers.filterMap
      (fun c => get_weather c.id (api c.address_geo_lat c.address_geo_lng))).map
    (fun p =>
      { customer_id := p.1
        weather_description := p.2.weather.headD emptyDescription
        main_temp := p.2.main_temp
        main_feels_like := p.2.main_feels_like
        main_humidity := p.2.main_humidity
        wind_speed := p.2.wind_speed
        clouds_all := p.2.clouds_all })

/-- A row of `bronze_orders`, read from `sales_data.csv`. -/
structure Order where
  customer_id : Nat
  product_id : Nat
  quantity : ℚ
  price : ℚ
  order_date : Date
deriving DecidableEq

/-- A row of `silver_sales`: the order columns (`o.*`) plus the customer name
and geo columns and the six weather columns selected by `etl_sales`. -/
structure Sale where
  customer_id : Nat
  product_id : Nat
  quantity : ℚ
  price : ℚ
  order_date : Date
  customer_name : String
  address_geo_lat : ℚ
  address_geo_lng : ℚ
  weather_description : String
  main_temp : ℚ
  main_feels_like : ℚ
  main_humidity : ℚ
  wind_speed : ℚ
  clouds_all : ℚ
deriving DecidableEq

/-- One joined row of `etl_sales`: the order columns plus the matched
customer's name and geo columns plus the matched weather columns. -/
def mkSale (o : Order) (c : Customer) (w : WeatherRow) : Sale :=
  { customer_id := o.customer_id
    product_id := o.product_id
    quantity := o.quantity
    price := o.price
    order_date := o.order_date
    customer_name := c.name
    address_geo_lat := c.address_geo_lat
    address_geo_lng := c.address_geo_lng
    weather_description := w.weather_description
    main_temp := w.main_temp
    main_feels_like := w.main_feels_like
    main_humidity := w.main_humidity
    wind_speed := w.wind_speed
    clouds_all := w.clouds_all }

/-- `etl_sales()`: the inner join
`bronze_orders o inner join bronze_customers c on c.id = o.customer_id
inner join bronze_weather w on w.customer_id = o.customer_id`,
projecting `o.*`, customer name/geo and the weather columns. -/
def etl_sales (orders : List Order) (customers : List Customer)
    (weather : List WeatherRow) : List Sale :=
  orders.flatMap (fun o =>
    ((customers.filter (fun c => decide (c.id = o.customer_id))).flatMap (fun c =>
      (weather.filter (fun w => decide (w.customer_id = o.customer_id))).map
        (fun w => mkSale o c w))))

/-- `process_total_sales()`: `total_sales = quantity * price`, grouped by
`customer_id` with `sum`, written to `gold_total_sales_by_customer`. -/
def process_total_sales (s : List Sale) : List (Nat × ℚ) :=
  groupByAgg leNat (fun r => r.customer_id)
    (fun g => (g.map (fun r => r.quantity * r.price)).sum) s

/-- `process_avg_order_quantity()`: grouped by `product_id` with
`mean(quantity)`, written to `gold_avg_order_quantity_per_product`. -/
def process_avg_order_quantity (s : List Sale) : List (Nat × ℚ) :=
  groupByAgg leNat (fun r => r.product_id)
    (fun g => (g.map (fun r => r.quantity)).sum / (g.length : ℚ)) s

/-- `process_top_selling_products()`: grouped by `product_id` with
`sum(quantity)`, then `sort_values(by="quantity", ascending=False)`. -/
def process_top_selling_products (s : List Sale) : List (Nat × ℚ) :=
  sort_values_desc leQty
    (groupByAgg leNat (fun r => r.product_id)
      (fun g => (g.map (fun r => r.quantity)).sum) s)

/-- `process_top_selling_customers()`: grouped by `customer_id` with
`sum(quantity)`, then `sort_values(by="quantity", ascending=False)`. -/
def process_top_selling_customers (s : List Sale) : List (Nat × ℚ) :=
  sort_values_desc leQty
    (groupByAgg leNat (fun r => r.customer_id)
      (fun g => (g.map (fun r => r.quantity)).sum) s)

/-- `process_sales_trends_monthly()`: `total_sales = quantity * price`, grouped
by `(order_year, order_month)` with `sum(quantity)` and `sum(total_sales)`. -/
def process_sales_trends_monthly (s : List Sale) : List ((Nat × Nat) × ℚ × ℚ) :=
  groupByAgg leNN (fun r => (r.order_date.year, r.order_date.month))
    (fun g => ((g.map (fun r => r.quantity)).sum,
               (g.map (fun r => r.quantity * r.price)).sum)) s

/-- `process_sales_trends_quarterly()`: as monthly, but grouped by
`(order_year, order_quarter)`. -/
def process_sales_trends_quarterly (s : List Sale) :
    List ((Nat × Nat) × ℚ × ℚ) :=
  groupByAgg leNN (fun r => (r.order_date.year, r.order_date.quarter))
    (fun g => ((g.map (fun r => r.quantity)).sum,
               (g.map (fun r => r.quantity * r.price)).sum)) s

/-- `process_sales_per_weather_condition()`: `total_sales = quantity * price`,
grouped by `weather_description` with `mean(total_sales)`. -/
def process_sales_per_weather_condition (s : List Sale) : List (String × ℚ) :=
  groupByAgg leStr (fun r => r.weather_description)
    (fun g => (g.map (fun r => r.quantity * r.price)).sum / (g.length : ℚ)) s

/-- The state of the MySQL store: one field per table the DAG writes, `none`
when the table does not exist yet.  Every `write_to_db` call uses
`if_exists='replace'`, so a write substitutes the whole table. -/
structure DB where
  bronze_customers : Option (List Customer)
  bronze_weather : Option (List WeatherRow)
  bronze_orders : Option (List Order)
  silver_sales : Option (List Sale)
  gold_total_sales_by_customer : Option (List (Nat × ℚ))
  gold_avg_order_quantity_per_product : Option (List (Nat × ℚ))
  gold_top_selling_products : Option (List (Nat × ℚ))
  gold_top_selling_customers : Option (List (Nat × ℚ))
  gold_sales_trends_monthly : Option (List ((Nat × Nat) × ℚ × ℚ))
  gold_sales_trends_quarterly : Option (List ((Nat × Nat) × ℚ × ℚ))
  gold_sales_per_weather_condition : Option (List (String × ℚ))
deriving DecidableEq

/-- The external sources of one run: the customer API response, the weather
API as a function of latitude and longitude, and the parsed orders CSV. -/
structure Inputs where
  users : List Customer
  weatherApi : ℚ → ℚ → WeatherResp
  ordersCsv : List Order

/-- `fetch_transform_write()` row content: `pd.json_normalize`,
`normalize_columns` and `set_index(["id"])` rename and index columns but leave
the row data unchanged. -/
def fetch_transform_write (users : List Customer) : List Customer := users

/-- One full run of the DAG over a database state: each task reads the tables
it needs (failing if one is missing) and replaces the table it owns, in an
order compatible with the declared dependencies. -/
def runPipeline (db : DB) (i : Inputs) : Option DB :=
  let db1 := { db with bronze_customers := some (fetch_transform_write i.users) }
  db1.bronze_customers.bind (fun customers =>
    let db2 := { db1 with
      bronze_weather := some (fetch_weather customers i.weatherApi) }
    let db3 := { db2 with bronze_orders := some i.ordersCsv }
    db3.bronze_orders.bind (fun orders =>
      db3.bronze_customers.bind (fun customers2 =>
        db3.bronze_weather.bind (fun weather =>
          let db4 := { db3 with
            silver_sales := some (etl_sales orders customers2 weather) }
          db4.silver_sales.bind (fun silver =>
            some { db4 with
              gold_total_sales_by_customer :=
                some (process_total_sales silver)
              gold_avg_order_quantity_per_product :=
                some (process_avg_order_quantity silver)
              gold_top_selling_products :=
                some (process_top_selling_products silver)
              gold_top_selling_customers :=
                some (process_top_selling_customers silver)
              gold_sales_trends_monthly :=
                some (process_sales_trends_monthly silver)
              gold_sales_trends_quarterly :=
                some (process_sales_trends_quarterly silver)
              gold_sales_per_weather_condition :=
                some (process_sales_per_weather_condition silver) })))))

/-- The twelve task nodes of the `sales_pipeline` DAG. -/
inductive DagTask where
  | test_connection
  | extract_customer_from_api
  | extract_weather_from_api
  | load_orders_csv_file
  | etl_sales
  | process_total_sales
  | process_avg_order_quantity
  | process_top_selling_products
  | process_top_selling_customers
  | process_sales_trends_monthly
  | process_sales_trends_quarterly
  | process_sales_per_weather_condition
deriving DecidableEq, Fintype

/-- All twelve tasks. -/
def allDagTasks : List DagTask :=
  [DagTask.test_connection, DagTask.extract_customer_from_api,
   DagTask.extract_weather_from_api, DagTask.load_orders_csv_file, DagTask.etl_sales,
   DagTask.process_total_sales, DagTask.process_avg_order_quantity,
   DagTask.process_top_selling_products, DagTask.process_top_selling_customers,
   DagTask.process_sales_trends_monthly, DagTask.process_sales_trends_quarterly,
   DagTask.process_sales_per_weather_condition]

/-- The seven gold-layer (Aggregator) tasks. -/
def goldDagTasks : List DagTask :=
  [DagTask.process_total_sales, DagTask.process_avg_order_quantity,
   DagTask.process_top_selling_products, DagTask.process_top_selling_customers,
   DagTask.process_sales_trends_monthly, DagTask.process_sales_trends_quarterly,
   DagTask.process_sales_per_weather_condition]

/-- The dependency edges declared by the two chaining statements
`test_connection >> fetch_customer_from_api >> fetch_weather_from_api >>
load_order` and `load_order >> po_etl_sales >> [the seven gold operators]`. -/
def edge : DagTask → DagTask → Bool
  | DagTask.test_connection, DagTask.extract_customer_from_api => true
  | DagTask.extract_customer_from_api, DagTask.extract_weather_from_api => true
  | DagTask.extract_weather_from_api, DagTask.load_orders_csv_file => true
  | DagTask.load_orders_csv_file, DagTask.etl_sales => true
  | DagTask.etl_sales, DagTask.process_total_sales => true
  | DagTask.etl_sales, DagTask.process_avg_order_quantity => true
  | DagTask.etl_sales, DagTask.process_top_selling_products => true
  | DagTask.etl_sales, DagTask.process_top_selling_customers => true
  | DagTask.etl_sales, DagTask.process_sales_trends_monthly => true
  | DagTask.etl_sales, DagTask.process_sales_trends_quarterly => true
  | DagTask.etl_sales, DagTask.process_sales_per_weather_condition => true
  | _, _ => false

/-- `reachB n a b`: there is an `edge`-path from `a` to `b` of length at most
`n + 1`. -/
def reachB : Nat → DagTask → DagTask → Bool
  | 0, a, b => edge a b
  | n + 1, a, b => edge a b || allDagTasks.any (fun c => edge a c && reachB n c b)

/-- `a` depends-precedes `b` in the declared graph (any path length suffices:
the graph has twelve nodes). -/
def reaches (a b : DagTask) : Bool := reachB 11 a b

/-- A start-order of the tasks respecting the declared dependencies: every
task occurs, and whenever `edge a b` is declared, `a` starts (and, tasks being
run-to-completion, finishes) before `b` starts.  Concurrent siblings are
modelled by the set of all such orders. -/
abbrev validSchedule (s : List DagTask) : Prop :=
  (∀ t : DagTask, t ∈ s) ∧
    ∀ a b : DagTask, edge a b = true → s.indexOf a < s.indexOf b

/-- A customer row used in concrete evaluations. -/
def custA : Customer :=
  { id := 1, name := "Ann", address_geo_lat := 0, address_geo_lng := 0 }

/-- A `bronze_weather` row for customer 1 used in concrete evaluations. -/
def weatherRowA : WeatherRow :=
  { customer_id := 1, weather_description := "clear sky", main_temp := 0,
    main_feels_like := 0, main_humidity := 0, wind_speed := 0, clouds_all := 0 }

/-- C1, counterexample.  Take `bronze_customers = [custA]` and
`bronze_weather = [weatherRowA]` (customer 1 has a row in both) but
`bronze_orders = []`.  Then customer 1 does not appear in `silver_sales`
(which is empty), so "C appears in silver_sales iff C has a row in both
bronze_customers and bronze_weather" fails: appearing also requires an order
row for C. -/
theorem etl_sales_join_iff_cex :
    ¬ ((∃ s ∈ etl_sales [] [custA] [weatherRowA], s.customer_id = 1) ↔
        ((∃ c ∈ [custA], c.id = 1) ∧ (∃ w ∈ [weatherRowA], w.customer_id = 1))) := by
  decide

/-- C1, amended: after `etl_sales` runs, a customer C appears in
`silver_sales` iff C has a row in `bronze_orders` and in `bronze_customers`
and in `bronze_weather`; `silver_sales` is the inner join of the three tables
on customer id, and any order whose `customer_id` is missing from either
`bronze_customers` or `bronze_weather` is silently dropped. -/
theorem etl_sales_join_iff :
    ∀ (orders : List Order) (customers : List Customer)
      (weather : List WeatherRow) (cid : Nat),
      (∃ s ∈ etl_sales orders customers weather, s.customer_id = cid) ↔
        ((∃ o ∈ orders, o.customer_id = cid) ∧ (∃ c ∈ customers, c.id = cid) ∧
          (∃ w ∈ weather, w.customer_id = cid)) := by
  intro orders customers weather cid
  constructor
  · rintro ⟨s, hs, hcid⟩
    rw [etl_sales, List.mem_flatMap] at hs
    obtain ⟨o, ho, hs⟩ := hs
    rw [List.mem_flatMap] at hs
    obtain ⟨c, hc, hs⟩ := hs
    rw [List.mem_filter] at hc
    rw [List.mem_map] at hs
    obtain ⟨w, hw, hs⟩ := hs
    rw [List.mem_filter] at hw
    have hco : o.customer_id = cid := by rw [← hcid, ← hs]; rfl
    refine ⟨⟨o, ho, hco⟩, ⟨c, hc.1, ?_⟩, ⟨w, hw.1, ?_⟩⟩
    · have := of_decide_eq_true hc.2
      rw [this, hco]
    · have := of_decide_eq_true hw.2
      rw [this, hco]
  · rintro ⟨⟨o, ho, hco⟩, ⟨c, hc, hcc⟩, ⟨w, hw, hwc⟩⟩
    refine ⟨mkSale o c w, ?_, hco⟩
    · rw [etl_sales, List.mem_flatMap]
      refine ⟨o, ho, ?_⟩
      rw [List.mem_flatMap]
      refine ⟨c, ?_, ?_⟩
      · rw [List.mem_filter]
        exact ⟨hc, decide_eq_true (by rw [hcc, hco])⟩
      · rw [List.mem_map]
        refine ⟨w, ?_, rfl⟩
        rw [List.mem_filter]
        exact ⟨hw, decide_eq_true (by rw [hwc, hco])⟩

/-- C3: a weather lookup whose response status is not 200 yields `None`, so
the customer is dropped (not retried, not defaulted); `fetch_weather` is a
total function on its inputs (the task itself still succeeds), and the ids
written to `bronze_weather` are exactly the ids of the customers whose
lookups returned 200, each row tagged with its originating customer id. -/
theorem fetch_weather_drops_failed :
    (∀ (id : Nat) (resp : WeatherResp), resp.status_code ≠ 200 →
        get_weather id resp = none) ∧
    (∀ (customers : List Customer) (api : ℚ → ℚ → WeatherResp),
        (fetch_weather customers api).map (fun w => w.customer_id) =
          (customers.filter (fun c =>
              decide ((api c.address_geo_lat c.address_geo_lng).status_code
                = 200))).map (fun c => c.id)) ∧
    (∀ (customers : List Customer) (api : ℚ → ℚ → WeatherResp) (cid : Nat),
        (∃ w ∈ fetch_weather customers api, w.customer_id = cid) ↔
          ∃ c ∈ customers, c.id = cid ∧
            (api c.address_geo_lat c.address_geo_lng).status_code = 200) := by
  have hmap : ∀ (customers : List Customer) (api : ℚ → ℚ → WeatherResp),
      (fetch_weather customers api).map (fun w => w.customer_id) =
        (customers.filter (fun c =>
            decide ((api c.address_geo_lat c.address_geo_lng).status_code
              = 200))).map (fun c => c.id) := by
    intro customers api
    induction customers with
    | nil => rfl
    | cons c cs ih =>
        by_cases h : (api c.address_geo_lat c.address_geo_lng).status_code = 200
        · simp only [fetch_weather, get_weather, List.filterMap_cons, h,
            if_true, List.map_cons, List.filter_cons, decide_eq_true h]
          exact congrArg _ ih
        · simp only [fetch_weather, get_weather, List.filterMap_cons, h,
            if_false, List.filter_cons, decide_eq_true_eq, if_neg h]
          simpa [fetch_weather, get_weather] using ih
  refine ⟨fun id resp h => by simp [get_weather, h], hmap, ?_⟩
  intro customers api cid
  have h1 : (∃ w ∈ fetch_weather customers api, w.customer_id = cid) ↔
      cid ∈ (fetch_weather customers api).map (fun w => w.customer_id) := by
    rw [List.mem_map]
  rw [h1, hmap, List.mem_map]
  constructor
  · rintro ⟨c, hc, hcid⟩
    rw [List.mem_filter] at hc
    exact ⟨c, hc.1, hcid, of_decide_eq_true hc.2⟩
  · rintro ⟨c, hc, hcid, hst⟩
    refine ⟨c, ?_, hcid⟩
    rw [List.mem_filter]
    exact ⟨hc, decide_eq_true hst⟩

/-- The weather response returned for failed-lookup evaluations. -/
def resp404 : WeatherResp :=
  { status_code := 404, weather := [], main_temp := 0, main_feels_like := 0,
    main_humidity := 0, wind_speed := 0, clouds_all := 0 }

/-- Witness for C3 at a concrete input: a 404 response yields no record. -/
theorem fetch_weather_drops_failed_witness :
    get_weather 1 resp404 = none :=
  fetch_weather_drops_failed.1 1 resp404 (by decide)

/-- A `silver_sales` row template used in concrete evaluations. -/
def baseSale : Sale :=
  { customer_id := 1, product_id := 1, quantity := 1, price := 1,
    order_date := { year := 2024, month := 1, day := 1 },
    customer_name := "Ann", address_geo_lat := 0, address_geo_lng := 0,
    weather_description := "clear sky", main_temp := 0, main_feels_like := 0,
    main_humidity := 0, wind_speed := 0, clouds_all := 0 }

unseal Rat.add Rat.mul in
/-- C4: `process_total_sales` groups `silver_sales` by `customer_id` and pairs
each customer with the sum of `quantity * price` over that customer's rows; on
the rows (cust 1, prod 1, qty 2, price 10) and (cust 1, prod 2, qty 1,
price 5) the table is exactly `[(1, 25)]`. -/
theorem process_total_sales_correct :
    (∀ (s : List Sale) (k : Nat) (v : ℚ),
        (k, v) ∈ process_total_sales s ↔
          ((∃ r ∈ s, r.customer_id = k) ∧
            v = ((s.filter (fun r => decide (r.customer_id = k))).map
                  (fun r => r.quantity * r.price)).sum)) ∧
      process_total_sales
          [{ baseSale with product_id := 1, quantity := 2, price := 10 },
           { baseSale with product_id := 2, quantity := 1, price := 5 }] =
        [(1, 25)] := by
  constructor
  · intro s k v
    exact mem_groupByAgg leNat (fun r => r.customer_id)
      (fun g => (g.map (fun r => r.quantity * r.price)).sum) s k v
  · decide

unseal Rat.add Rat.mul Rat.inv in
/-- C7: `process_sales_per_weather_condition` groups `silver_sales` by
`weather_description` and pairs each description with the mean of
`quantity * price` over its rows; on exactly two rows under "clear sky" with
total sales 100 and 50 the table is exactly `[("clear sky", 75)]`. -/
theorem process_sales_per_weather_condition_correct :
    (∀ (s : List Sale) (k : String) (v : ℚ),
        (k, v) ∈ process_sales_per_weather_condition s ↔
          ((∃ r ∈ s, r.weather_description = k) ∧
            v = ((s.filter (fun r => decide (r.weather_description = k))).map
                    (fun r => r.quantity * r.price)).sum /
                  ((s.filter (fun r => decide (r.weather_description = k))).length : ℚ))) ∧
      process_sales_per_weather_condition
          [{ baseSale with quantity := 10, price := 10 },
           { baseSale with product_id := 2, quantity := 5, price := 10 }] =
        [("clear sky", 75)] := by
  constructor
  · intro s k v
    exact mem_groupByAgg leStr (fun r => r.weather_description)
      (fun g => (g.map (fun r => r.quantity * r.price)).sum / (g.length : ℚ))
      s k v
  · decide

/-- The rows of `silver_sales` falling in the monthly bucket `k = (year, month)`. -/
def monthGroup (s : List Sale) (k : Nat × Nat) : List Sale :=
  s.filter (fun r => decide ((r.order_date.year, r.order_date.month) = k))

/-- The rows of `silver_sales` falling in the quarterly bucket `k = (year, quarter)`. -/
def quarterGroup (s : List Sale) (k : Nat × Nat) : List Sale :=
  s.filter (fun r => decide ((r.order_date.year, r.order_date.quarter) = k))

/-- C6: the monthly aggregator buckets by `(year, month)` of `order_date` and
the quarterly one by `(year, quarter)`, each summing `quantity` and
`quantity * price`; every silver row dated 2024-02-15 lies in the
`(2024, 2)` monthly group and the `(2024, 1)` quarterly group, and those
groups' sum rows are present in the respective gold tables. -/
theorem sales_trends_bucketing :
    ∀ (s : List Sale) (r : Sale), r ∈ s →
      r.order_date = { year := 2024, month := 2, day := 15 } →
      (r ∈ monthGroup s (2024, 2) ∧
        ((2024, 2), ((monthGroup s (2024, 2)).map (fun x => x.quantity)).sum,
            ((monthGroup s (2024, 2)).map (fun x => x.quantity * x.price)).sum) ∈
          process_sales_trends_monthly s) ∧
      (r ∈ quarterGroup s (2024, 1) ∧
        ((2024, 1), ((quarterGroup s (2024, 1)).map (fun x => x.quantity)).sum,
            ((quarterGroup s (2024, 1)).map (fun x => x.quantity * x.price)).sum) ∈
          process_sales_trends_quarterly s) := by
  intro s r hr hdate
  have hm : (r.order_date.year, r.order_date.month) = ((2024 : Nat), (2 : Nat)) := by
    rw [hdate]
  have hq : (r.order_date.year, r.order_date.quarter) = ((2024 : Nat), (1 : Nat)) := by
    rw [hdate]
    rfl
  constructor
  · constructor
    · rw [monthGroup, List.mem_filter]
      exact ⟨hr, decide_eq_true hm⟩
    · exact (mem_groupByAgg leNN (fun x => (x.order_date.year, x.order_date.month))
        (fun g => ((g.map (fun x => x.quantity)).sum,
          (g.map (fun x => x.quantity * x.price)).sum)) s (2024, 2) _).2
        ⟨⟨r, hr, hm⟩, rfl⟩
  · constructor
    · rw [quarterGroup, List.mem_filter]
      exact ⟨hr, decide_eq_true hq⟩
    · exact (mem_groupByAgg leNN (fun x => (x.order_date.year, x.order_date.quarter))
        (fun g => ((g.map (fun x => x.quantity)).sum,
          (g.map (fun x => x.quantity * x.price)).sum)) s (2024, 1) _).2
        ⟨⟨r, hr, hq⟩, rfl⟩

/-- A silver row dated 2024-02-15 for the bucketing witness. -/
def saleFeb : Sale :=
  { baseSale with order_date := { year := 2024, month := 2, day := 15 } }

/-- Witness for C6 at a concrete input: the row dated 2024-02-15 lies in the
`(2024, 2)` monthly group and in the `(2024, 1)` quarterly group. -/
theorem sales_trends_bucketing_witness :
    saleFeb ∈ monthGroup [saleFeb] (2024, 2) ∧
      saleFeb ∈ quarterGroup [saleFeb] (2024, 1) :=
  ⟨((sales_trends_bucketing [saleFeb] saleFeb (by simp) rfl).1).1,
   ((sales_trends_bucketing [saleFeb] saleFeb (by simp) rfl).2).1⟩

/-- C8: a full run never reads state left by earlier runs — its result is the
same from any starting database — and therefore a second run against unchanged
external sources reproduces the first run's database, gold tables included:
every write is a full replace and each gold table is recomputed from the
`silver_sales` of its own run. -/
theorem pipeline_idempotent :
    (∀ (db db' : DB) (i : Inputs), runPipeline db i = runPipeline db' i) ∧
      ∀ (db : DB) (i : Inputs) (r : DB),
        runPipeline db i = some r → runPipeline r i = some r := by
  refine ⟨fun db db' i => rfl, fun db i r h => ?_⟩
  exact (show runPipeline r i = runPipeline db i from rfl).trans h

/-- The empty starting database. -/
def db0 : DB :=
  { bronze_customers := none, bronze_weather := none, bronze_orders := none,
    silver_sales := none, gold_total_sales_by_customer := none,
    gold_avg_order_quantity_per_product := none,
    gold_top_selling_products := none, gold_top_selling_customers := none,
    gold_sales_trends_monthly := none, gold_sales_trends_quarterly := none,
    gold_sales_per_weather_condition := none }

/-- External sources with no customers and no orders. -/
def inputs0 : Inputs :=
  { users := [], weatherApi := fun _ _ => resp404, ordersCsv := [] }

/-- The database produced by a run against `inputs0`: every table exists and
is empty. -/
def dbEmptyRun : DB :=
  { bronze_customers := some [], bronze_weather := some [],
    bronze_orders := some [], silver_sales := some [],
    gold_total_sales_by_customer := some [],
    gold_avg_order_quantity_per_product := some [],
    gold_top_selling_products := some [], gold_top_selling_customers := some [],
    gold_sales_trends_monthly := some [], gold_sales_trends_quarterly := some [],
    gold_sales_per_weather_condition := some [] }

/-- Witness for C8 at a concrete input: one run from the empty database
produces `dbEmptyRun`, and a second run reproduces it unchanged. -/
theorem pipeline_idempotent_witness :
    runPipeline db0 inputs0 = some dbEmptyRun ∧
      runPipeline dbEmptyRun inputs0 = some dbEmptyRun :=
  ⟨rfl, pipeline_idempotent.2 db0 inputs0 dbEmptyRun rfl⟩

/-- Two order rows sharing the compound key (1, 1). -/
def ordDupA : Order :=
  { customer_id := 1, product_id := 1, quantity := 1, price := 10,
    order_date := { year := 2024, month := 1, day := 1 } }

/-- Second order row with the same (customer_id, product_id) key. -/
def ordDupB : Order :=
  { customer_id := 1, product_id := 1, quantity := 2, price := 10,
    order_date := { year := 2024, month := 1, day := 2 } }

/-- C9, counterexample.  With two `bronze_orders` rows sharing
`(customer_id, product_id) = (1, 1)` and matching customer and weather rows,
`etl_sales` emits two `silver_sales` rows with the same compound key:
`set_index(['customer_id', 'product_id'])` labels rows, it does not
deduplicate them, so the pair is not a unique row identity. -/
theorem silver_key_unique_cex :
    ¬ List.Pairwise (fun a b : Sale =>
        (a.customer_id, a.product_id) ≠ (b.customer_id, b.product_id))
      (etl_sales [ordDupA, ordDupB] [custA] [weatherRowA]) := by
  decide

theorem filter_length_le_one {α K : Type} [DecidableEq K] (f : α → K)
    (l : List α) (h : (l.map f).Nodup) (k : K) :
    (l.filter (fun x => decide (f x = k))).length ≤ 1 := by
  induction l with
  | nil => simp
  | cons a l ih =>
      rw [List.map_cons, List.nodup_cons] at h
      by_cases hak : f a = k
      · have hnil : l.filter (fun x => decide (f x = k)) = [] := by
          rw [List.filter_eq_nil_iff]
          intro b hb hfb
          exact h.1 (hak ▸ (of_decide_eq_true hfb) ▸ List.mem_map_of_mem f hb)
        simp [List.filter_cons, hak, hnil]
      · simpa [List.filter_cons, hak] using ih h.2

theorem length_le_one_cases {α : Type} (l : List α) (h : l.length ≤ 1) :
    l = [] ∨ ∃ a, l = [a] := by
  match l with
  | [] => exact Or.inl rfl
  | [a] => exact Or.inr ⟨a, rfl⟩
  | a :: b :: l => simp at h

theorem flatMap_map_sublist {α β γ : Type} (f : α → List β) (g : β → γ)
    (h : α → γ) (l : List α) (hf : ∀ a ∈ l, List.Sublist ((f a).map g) [h a]) :
    List.Sublist ((l.flatMap f).map g) (l.map h) := by
  induction l with
  | nil => simp
  | cons a l ih =>
      rw [List.flatMap_cons, List.map_append, List.map_cons]
      have h1 : List.Sublist ((f a).map g) [h a] := hf a (List.mem_cons_self a l)
      have h2 := ih (fun b hb => hf b (List.mem_cons_of_mem a hb))
      exact List.Sublist.append h1 h2

/-- C9, amended: `(customer_id, product_id)` is the index written for
`silver_sales` but not a uniqueness guarantee: the compound keys of the
silver rows form a sublist of the compound keys of `bronze_orders`, so they
are pairwise distinct whenever the order keys are (given the unique customer
and weather ids the bronze tables carry); duplicate order keys, however, pass
through to duplicate silver keys. -/
theorem silver_key_unique :
    ∀ (orders : List Order) (customers : List Customer)
      (weather : List WeatherRow),
      List.Pairwise (fun o o' : Order =>
        (o.customer_id, o.product_id) ≠ (o'.customer_id, o'.product_id))
        orders →
      ((customers.map (fun c => c.id)).Nodup) →
      ((weather.map (fun w => w.customer_id)).Nodup) →
      List.Pairwise (fun a b : Sale =>
        (a.customer_id, a.product_id) ≠ (b.customer_id, b.product_id))
        (etl_sales orders customers weather) := by
  intro orders customers weather hO hC hW
  have hsub : List.Sublist
      ((etl_sales orders customers weather).map
        (fun s => (s.customer_id, s.product_id)))
      (orders.map (fun o => (o.customer_id, o.product_id))) := by
    apply flatMap_map_sublist
    intro o ho
    rcases length_le_one_cases _
        (filter_length_le_one (fun c => c.id) customers hC o.customer_id) with
      hcn | ⟨c, hcs⟩
    · rw [hcn]
      simp
    · rw [hcs]
      rcases length_le_one_cases _
          (filter_length_le_one (fun w => w.customer_id) weather hW
            o.customer_id) with
        hwn | ⟨w, hws⟩
      · rw [hwn]
        simp
      · rw [hws]
        simp [mkSale]
  have hp : ((etl_sales orders customers weather).map
      (fun s => (s.customer_id, s.product_id))).Pairwise
        (fun x y => x ≠ y) :=
    List.Pairwise.sublist hsub (List.pairwise_map.2 hO)
  exact List.pairwise_map.1 hp

/-- Witness for C9 at a concrete input: with nodup order keys and unique
customer/weather ids, the silver keys are pairwise distinct. -/
theorem silver_key_unique_witness :
    List.Pairwise (fun a b : Sale =>
        (a.customer_id, a.product_id) ≠ (b.customer_id, b.product_id))
      (etl_sales [ordDupA] [custA] [weatherRowA]) :=
  silver_key_unique [ordDupA] [custA] [weatherRowA]
    (by decide) (by decide) (by decide)

/-- Two tied silver rows whose products are encountered in the order 2, 1. -/
def silverTie : List Sale :=
  [{ baseSale with product_id := 2 }, { baseSale with product_id := 1 }]

unseal Rat.add in
/-- C5, counterexample.  In `silverTie` the join encounters product 2 before
product 1 and both products tie at summed quantity 1, yet
`gold_top_selling_products` lists product 1 first: the groupby already
reorders the rows by `product_id` before the descending quantity sort ever
runs, so the join's row-encounter order of tied products is lost (on this
two-row input the sort model is exact for numpy's default sort). -/
theorem top_selling_products_tie_cex :
    silverTie.map (fun r => r.product_id) = [2, 1] ∧
      process_top_selling_products silverTie = [(1, 1), (2, 1)] := by
  constructor
  · rfl
  · decide

/-- C5, amended: `process_top_selling_products` groups `silver_sales` by
`product_id` with `sum(quantity)` — its rows are a permutation of the
per-product sums, and `(k, v)` appears iff some silver row has product `k`
and `v` is that product's summed quantity — and sorts descending by the
aggregated quantity only, so the output is non-increasing in summed quantity
across the full output; the order among tied sums is not guaranteed (the
default sort kind is not stable), and in particular ties need not retain the
join's row-encounter order. -/
theorem top_selling_products_sorted :
    ∀ s : List Sale,
      (∀ (k : Nat) (v : ℚ),
          (k, v) ∈ process_top_selling_products s ↔
            ((∃ r ∈ s, r.product_id = k) ∧
              v = ((s.filter (fun r => decide (r.product_id = k))).map
                    (fun r => r.quantity)).sum)) ∧
        List.Pairwise (fun a b : Nat × ℚ => b.2 ≤ a.2)
          (process_top_selling_products s) := by
  intro s
  have hperm : List.Perm (process_top_selling_products s)
      (groupByAgg leNat (fun r => r.product_id)
        (fun g => (g.map (fun r => r.quantity)).sum) s) :=
    (List.reverse_perm _).trans
      ((perm_sortLe leQty _).trans (List.reverse_perm _))
  constructor
  · intro k v
    rw [hperm.mem_iff]
    exact mem_groupByAgg leNat (fun r => r.product_id)
      (fun g => (g.map (fun r => r.quantity)).sum) s k v
  · have htot2 : ∀ a b : Nat × ℚ, leQty a b = true ∨ leQty b a = true := by
      intro a b
      rcases le_total a.2 b.2 with h | h
      · exact Or.inl (decide_eq_true h)
      · exact Or.inr (decide_eq_true h)
    have htr2 : ∀ a b c : Nat × ℚ,
        leQty a b = true → leQty b c = true → leQty a c = true := by
      intro a b c hab hbc
      exact decide_eq_true
        (le_trans (of_decide_eq_true hab) (of_decide_eq_true hbc))
    have hs2 := pairwise_sortLe leQty htot2 htr2
      ((groupByAgg leNat (fun r => r.product_id)
        (fun g => (g.map (fun r => r.quantity)).sum) s).reverse)
    show List.Pairwise (fun a b : Nat × ℚ => b.2 ≤ a.2)
      ((sortLe leQty ((groupByAgg leNat (fun r => r.product_id)
        (fun g => (g.map (fun r => r.quantity)).sum) s).reverse)).reverse)
    exact List.pairwise_reverse.2
      (List.Pairwise.imp (fun h => of_decide_eq_true h) hs2)

/-- Witness for C5 at a concrete input: the non-increasing ordering evaluated
on `silverTie`. -/
theorem top_selling_products_sorted_witness :
    List.Pairwise (fun a b : Nat × ℚ => b.2 ≤ a.2)
      (process_top_selling_products silverTie) :=
  (top_selling_products_sorted silverTie).2

/-- C2: under the declared task graph, in every dependency-respecting start
order the Reconciler `etl_sales` starts (and completes, tasks being
run-to-completion) before every Aggregator task, and only after the customer
extraction, weather extraction and order loading tasks; and no Aggregator
depends on another Aggregator (no path connects two distinct gold tasks), so
the seven may run in any order or concurrently. -/
theorem dag_gold_after_silver :
    (∀ s : List DagTask, validSchedule s →
        (∀ g ∈ goldDagTasks, s.indexOf DagTask.etl_sales < s.indexOf g) ∧
          s.indexOf DagTask.extract_customer_from_api <
            s.indexOf DagTask.etl_sales ∧
          s.indexOf DagTask.extract_weather_from_api <
            s.indexOf DagTask.etl_sales ∧
          s.indexOf DagTask.load_orders_csv_file <
            s.indexOf DagTask.etl_sales) ∧
      ∀ g ∈ goldDagTasks, ∀ g2 ∈ goldDagTasks, g ≠ g2 →
        reaches g g2 = false := by
  constructor
  · intro s hs
    obtain ⟨hmem, hedge⟩ := hs
    have hload :=
      hedge DagTask.load_orders_csv_file DagTask.etl_sales rfl
    have hweather :=
      hedge DagTask.extract_weather_from_api DagTask.load_orders_csv_file rfl
    have hcust :=
      hedge DagTask.extract_customer_from_api DagTask.extract_weather_from_api
        rfl
    refine ⟨?_, Nat.lt_trans hcust (Nat.lt_trans hweather hload),
      Nat.lt_trans hweather hload, hload⟩
    intro g hg
    fin_cases hg <;> exact hedge _ _ rfl
  · decide

/-- Witness for C2 at a concrete schedule: the declaration order of the
twelve tasks is a valid schedule, and in it `etl_sales` precedes the
total-sales Aggregator. -/
theorem dag_gold_after_silver_witness :
    validSchedule allDagTasks ∧
      allDagTasks.indexOf DagTask.etl_sales <
        allDagTasks.indexOf DagTask.process_total_sales :=
  ⟨by decide, (dag_gold_after_silver.1 allDagTasks (by decide)).1
    DagTask.process_total_sales (by decide)⟩

/-- Validity of a start order with respect to an arbitrary edge set. -/
abbrev validScheduleFor (e : DagTask → DagTask → Bool) (s : List DagTask) : Prop :=
  (∀ t : DagTask, t ∈ s) ∧
    ∀ a b : DagTask, e a b = true → s.indexOf a < s.indexOf b

/-- Modelled from the spec: the ordering rule of §1/§4.3 requires extraction
tasks to complete before the reconciliation step and reconciliation before
every aggregation step; the weather extractor reads `bronze_customers`, so
customer extraction precedes it.  No other order is required: in particular
customer/order ingestion could be siblings. -/
def specRequiredEdge : DagTask → DagTask → Bool
  | DagTask.extract_customer_from_api, DagTask.extract_weather_from_api => true
  | DagTask.extract_customer_from_api, DagTask.etl_sales => true
  | DagTask.extract_weather_from_api, DagTask.etl_sales => true
  | DagTask.load_orders_csv_file, DagTask.etl_sales => true
  | DagTask.etl_sales, DagTask.process_total_sales => true
  | DagTask.etl_sales, DagTask.process_avg_order_quantity => true
  | DagTask.etl_sales, DagTask.process_top_selling_products => true
  | DagTask.etl_sales, DagTask.process_top_selling_customers => true
  | DagTask.etl_sales, DagTask.process_sales_trends_monthly => true
  | DagTask.etl_sales, DagTask.process_sales_trends_quarterly => true
  | DagTask.etl_sales, DagTask.process_sales_per_weather_condition => true
  | _, _ => false

/-- A start order that loads orders before extracting customers and weather. -/
def schedOrdersFirst : List DagTask :=
  [DagTask.test_connection, DagTask.load_orders_csv_file,
   DagTask.extract_customer_from_api, DagTask.extract_weather_from_api,
   DagTask.etl_sales, DagTask.process_total_sales,
   DagTask.process_avg_order_quantity, DagTask.process_top_selling_products,
   DagTask.process_top_selling_customers, DagTask.process_sales_trends_monthly,
   DagTask.process_sales_trends_quarterly,
   DagTask.process_sales_per_weather_condition]

/-- C10: the declared graph chains the three bronze tasks linearly — customer
extraction, then weather extraction, then order loading — so in every
dependency-respecting start order the three are totally ordered (none run
concurrently) and order loading cannot start before weather extraction; each
bronze task reaches `etl_sales`, and the chain is strictly stronger than the
spec's bronze-before-silver rule: a schedule loading orders first satisfies
the spec-required edges but violates the declared graph. -/
theorem dag_bronze_linear_chain :
    (∀ s : List DagTask, validSchedule s →
        s.indexOf DagTask.extract_customer_from_api <
          s.indexOf DagTask.extract_weather_from_api ∧
        s.indexOf DagTask.extract_weather_from_api <
          s.indexOf DagTask.load_orders_csv_file ∧
        s.indexOf DagTask.extract_customer_from_api <
          s.indexOf DagTask.load_orders_csv_file) ∧
      (reaches DagTask.extract_customer_from_api DagTask.etl_sales = true ∧
        reaches DagTask.extract_weather_from_api DagTask.etl_sales = true ∧
        reaches DagTask.load_orders_csv_file DagTask.etl_sales = true) ∧
      (validScheduleFor specRequiredEdge schedOrdersFirst ∧
        ¬ validSchedule schedOrdersFirst) := by
  refine ⟨?_, by decide, by decide⟩
  intro s hs
  obtain ⟨hmem, hedge⟩ := hs
  have h1 :=
    hedge DagTask.extract_customer_from_api DagTask.extract_weather_from_api
      rfl
  have h2 :=
    hedge DagTask.extract_weather_from_api DagTask.load_orders_csv_file rfl
  exact ⟨h1, h2, Nat.lt_trans h1 h2⟩

/-- Witness for C10 at a concrete schedule: the declaration order is valid
and orders the bronze chain as declared. -/
theorem dag_bronze_linear_chain_witness :
    validSchedule allDagTasks ∧
      allDagTasks.indexOf DagTask.extract_customer_from_api <
        allDagTasks.indexOf DagTask.extract_weather_from_api :=
  ⟨by decide, (dag_bronze_linear_chain.1 allDagTasks (by decide)).1⟩

/-- Witness for C1 at a concrete input: the amended join characterization
evaluated on one order, one customer and one weather row. -/
theorem etl_sales_join_iff_witness :
    (∃ s ∈ etl_sales [ordDupA] [custA] [weatherRowA], s.customer_id = 1) ↔
      ((∃ o ∈ [ordDupA], o.customer_id = 1) ∧ (∃ c ∈ [custA], c.id = 1) ∧
        (∃ w ∈ [weatherRowA], w.customer_id = 1)) :=
  etl_sales_join_iff [ordDupA] [custA] [weatherRowA] 1

/-- Witness for C4: the concrete two-row evaluation of the theorem. -/
theorem process_total_sales_correct_witness :
    process_total_sales
        [{ baseSale with product_id := 1, quantity := 2, price := 10 },
         { baseSale with product_id := 2, quantity := 1, price := 5 }] =
      [(1, 25)] :=
  process_total_sales_correct.2

/-- Witness for C7: the concrete two-row evaluation of the theorem. -/
theorem process_sales_per_weather_condition_correct_witness :
    process_sales_per_weather_condition
        [{ baseSale with quantity := 10, price := 10 },
         { baseSale with product_id := 2, quantity := 5, price := 10 }] =
      [("clear sky", 75)] :=
  process_sales_per_weather_condition_correct.2
